import Mathlib

/-!
Verification of the pomodoro-tui timer core.

The definitions below are a shallow embedding of the C++ sources
(`src/pomodoro.cpp`, duplicated in `main.cpp`): the Session Clock
(`timer_tick`), the session-transition procedure
(`handle_session_transition`), one iteration of the main event loop
(`loop_step`, split into the key-handling part `apply_key` and the
clock/transition part `tick_phase`, exactly the two halves of the C++
loop body), and the progress-bar fill computation of `draw`
(`progress_fill`).  C++ `int` fields are embedded as `Int`; terminal
input (`getch` results) is passed in as an explicit `Int` key code.
-/

namespace Pomodoro

/-- Constant from the source: seconds per minute. -/
def kSecondsPerMinute : Int := 60

/-- Constant from the source: microseconds per second. -/
def kMicrosecondsPerSecond : Int := 1000000

/-- Constant from the source: the fixed tick interval in microseconds. -/
def kIntervalUs : Int := 10000

/-- Constant from the source: progress bar width in `draw`. -/
def kBarWidth : Int := 40

/-- ASCII code of the lowercase q key. -/
def keyQLower : Int := 113

/-- ASCII code of the uppercase Q key. -/
def keyQUpper : Int := 81

/-- ASCII code of the s key (start/pause). -/
def keyS : Int := 115

/-- ASCII code of the r key (reset). -/
def keyR : Int := 114

/-- Embeds the C++ struct `SessionTime { int minutes; int seconds; }`. -/
structure SessionTime where
  minutes : Int
  seconds : Int
deriving DecidableEq

/-- Total seconds of a session duration: `minutes * kSecondsPerMinute + seconds`,
the expression used at every `TimerTickState` initialization site. -/
def session_total_seconds (s : SessionTime) : Int :=
  s.minutes * kSecondsPerMinute + s.seconds

/-- Embeds the C++ struct `TimerTickState { int total_seconds; int elapsed_us; }`. -/
structure TimerTickState where
  total_seconds : Int
  elapsed_us : Int
deriving DecidableEq

/-- Embeds `timer_tick` (pomodoro.cpp lines 92-103; identical copy in main.cpp):
the accumulator gains `interval_us`; on reaching one second it is set to 0 and
`total_seconds` is decremented if positive, otherwise `true` (expired) is
returned with the state otherwise unchanged.  Returns (new state, expired). -/
def timer_tick (state : TimerTickState) (interval_us : Int) :
    TimerTickState × Bool :=
  if state.elapsed_us + interval_us ≥ kMicrosecondsPerSecond then
    if state.total_seconds > 0 then
      (⟨state.total_seconds - 1, 0⟩, false)
    else
      (⟨state.total_seconds, 0⟩, true)
  else
    (⟨state.total_seconds, state.elapsed_us + interval_us⟩, false)

/-- Iterates `timer_tick` a given number of times from a state, returning the
final state together with how many of the calls returned expired = true. -/
def tick_iter (interval_us : Int) : TimerTickState → Nat → TimerTickState × Nat
  | st, 0 => (st, 0)
  | st, n + 1 =>
    let r := timer_tick st interval_us
    let rest := tick_iter interval_us r.1 n
    (rest.1, (if r.2 then 1 else 0) + rest.2)

/-- Embeds the return value of `prompt_continue` (pomodoro.cpp lines 68-89) as a
function of the key read by its blocking `getch`:
`key_code != q && key_code != Q`. -/
def prompt_continue_result (key_code : Int) : Bool :=
  key_code != keyQLower && key_code != keyQUpper

/-- Result of `handle_session_transition`: the returned Bool (`keep_going`),
the final values of the by-reference parameters `on_break`, `current`,
`tick_state`, `status`, and the global `running` flag on exit (the caller sets
`running = false` immediately before the call; the procedure sets it back to
true only on the continue paths). -/
structure TransitionOut where
  keep_going : Bool
  on_break : Bool
  current : SessionTime
  tick_state : TimerTickState
  status : String
  running : Bool
deriving DecidableEq

/-- Embeds `handle_session_transition` (pomodoro.cpp lines 106-134) with the
blocking prompt keystroke passed in as `prompt_key`. -/
def handle_session_transition (on_break : Bool) (current : SessionTime)
    (tick_state : TimerTickState) (pomodoro brk : SessionTime)
    (status : String) (prompt_key : Int) : TransitionOut :=
  if !on_break then
    let current2 := brk
    let tick2 : TimerTickState := ⟨session_total_seconds current2, 0⟩
    if !(prompt_continue_result prompt_key) then
      ⟨false, true, current2, tick2, "Break Ready", false⟩
    else
      ⟨true, true, current2, tick2, "Break Running", true⟩
  else
    if !(prompt_continue_result prompt_key) then
      ⟨false, on_break, current, tick_state, status, false⟩
    else
      let current2 := pomodoro
      let tick2 : TimerTickState := ⟨session_total_seconds current2, 0⟩
      ⟨true, false, current2, tick2, "Running", true⟩

/-- Mutable state of `pomodoro_event_loop`: the globals `running` and `paused`
and the locals `on_break`, `current`, `tick_state`, `status`. -/
structure LoopState where
  running : Bool
  paused : Bool
  on_break : Bool
  current : SessionTime
  tick_state : TimerTickState
  status : String
deriving DecidableEq

/-- The quit test at the top of the event loop: `key_code == q` (lowercase
only, pomodoro.cpp line 147). -/
def is_main_quit_key (key_code : Int) : Bool :=
  key_code == keyQLower

/-- Embeds the key-handling half of the event loop body (pomodoro.cpp lines
150-174): the s branch toggles running/paused and the r branch resets to the
duration of whichever session kind is active.  The q test is handled by the
caller `loop_step`. -/
def apply_key (pomodoro brk : SessionTime) (st : LoopState)
    (key_code : Int) : LoopState :=
  let st1 :=
    if key_code == keyS then
      if !st.running then
        { st with running := true, paused := false,
                  status := if st.on_break then "Break Running" else "Running" }
      else
        let p := !st.paused
        { st with paused := p,
                  status :=
                    if p then
                      (if st.on_break then "Break Paused" else "Paused")
                    else
                      (if st.on_break then "Break Running" else "Running") }
    else st
  if key_code == keyR then
    let cur := if st1.on_break then brk else pomodoro
    { st1 with running := false, paused := false, current := cur,
               tick_state := ⟨session_total_seconds cur, 0⟩,
               status := if st1.on_break then "Break Stopped" else "Stopped" }
  else st1

/-- Outcome of one event-loop iteration: `stop` means the `while` loop breaks
(quit key or quitting at a transition prompt), `next` carries the state into
the following iteration. -/
inductive LoopOutcome where
  | stop : LoopState → LoopOutcome
  | next : LoopState → LoopOutcome
deriving DecidableEq

/-- Embeds the clock half of the event loop body (pomodoro.cpp lines 175-203):
if running and not paused, `timer_tick` advances the clock by `kIntervalUs`;
on expiry `running` is cleared and `handle_session_transition` runs, breaking
the loop when it returns false.  Otherwise the state is untouched (the branch
only redraws and sleeps). -/
def tick_phase (pomodoro brk : SessionTime) (st : LoopState)
    (prompt_key : Int) : LoopOutcome :=
  if st.running && !st.paused then
    let r := timer_tick st.tick_state kIntervalUs
    if r.2 then
      let st1 := { st with running := false, tick_state := r.1 }
      let tr := handle_session_transition st1.on_break st1.current
        st1.tick_state pomodoro brk st1.status prompt_key
      let st2 := { st1 with
        on_break := tr.on_break
        current := tr.current
        tick_state := tr.tick_state
        status := tr.status
        running := tr.running }
      if !tr.keep_going then .stop st2 else .next st2
    else
      .next { st with tick_state := r.1 }
  else
    .next st

/-- One full iteration of the `while (true)` body of `pomodoro_event_loop`
(pomodoro.cpp lines 145-204): read a key, break on q, handle s/r, then run the
clock phase.  `prompt_key` is the keystroke the blocking prompt would consume
if a session transition fires this iteration. -/
def loop_step (pomodoro brk : SessionTime) (st : LoopState)
    (key_code prompt_key : Int) : LoopOutcome :=
  if is_main_quit_key key_code then .stop st
  else tick_phase pomodoro brk (apply_key pomodoro brk st key_code) prompt_key

/-- Embeds the progress-bar fill computation of `draw` (pomodoro.cpp lines
264-273): fill starts at 0; only when `total_seconds > 0` is anything
computed, with a special full-bar case when the remaining time is zero after
at least one elapsed second. -/
def progress_fill (total_seconds remaining_seconds : Int) : Int :=
  if total_seconds > 0 then
    if remaining_seconds = 0 ∧ total_seconds - remaining_seconds > 0 then
      kBarWidth
    else
      (total_seconds - remaining_seconds) * kBarWidth / total_seconds
  else
    0

/-! Helper lemmas about iterated clock ticks. -/

/-- Running the clock for `a + b` ticks is running it for `a` ticks and then
for `b` more; the expiry counts add. -/
lemma tick_iter_add (i : Int) (st : TimerTickState) (a b : Nat) :
    tick_iter i st (a + b) =
      ((tick_iter i (tick_iter i st a).1 b).1,
       (tick_iter i st a).2 + (tick_iter i (tick_iter i st a).1 b).2) := by
  induction a generalizing st with
  | zero => simp [tick_iter]
  | succ n ih =>
      have h : n + 1 + b = (n + b) + 1 := by omega
      rw [h]
      simp only [tick_iter]
      rw [ih]
      simp [Nat.add_assoc]

/-- A tick that stays below one second only grows the accumulator. -/
lemma timer_tick_no_carry (t acc i : Int)
    (h : acc + i < kMicrosecondsPerSecond) :
    timer_tick ⟨t, acc⟩ i = (⟨t, acc + i⟩, false) := by
  simp only [timer_tick]
  rw [if_neg (not_le.mpr h)]

/-- While the accumulated ticks stay below one second, `tick_iter` only adds
them up: no carry, no decrement, no expiry. -/
lemma tick_iter_no_carry (i : Int) (hi : 0 < i) :
    ∀ (j : Nat) (t acc : Int), 0 ≤ acc →
      acc + j * i < kMicrosecondsPerSecond →
      tick_iter i ⟨t, acc⟩ j = (⟨t, acc + j * i⟩, 0) := by
  intro j
  induction j with
  | zero => intro t acc _ _; simp [tick_iter]
  | succ n ih =>
      intro t acc h0 h1
      have hni : (0 : Int) ≤ (n : Int) * i := by positivity
      have hcast : ((n + 1 : Nat) : Int) * i = (n : Int) * i + i := by
        push_cast; ring
      rw [hcast] at h1
      have hstep : acc + i < kMicrosecondsPerSecond := by linarith
      simp only [tick_iter, timer_tick_no_carry t acc i hstep]
      rw [ih t (acc + i) (by linarith) (by linarith)]
      refine Prod.ext ?_ (by simp)
      simp only
      congr 1
      rw [hcast]
      ring

/-- When `k` ticks of `i` microseconds sum to exactly one second, running the
clock from a zero accumulator for `k` ticks performs exactly one carry on the
last tick: it decrements a positive counter (no expiry), and signals expiry
exactly once on a zero counter, never going negative. -/
lemma tick_iter_one_second (i : Int) (k : Nat) (t : Int)
    (hi : 0 < i) (hk : (k : Int) * i = kMicrosecondsPerSecond) :
    tick_iter i ⟨t, 0⟩ k =
      if 0 < t then (⟨t - 1, 0⟩, 0) else (⟨t, 0⟩, 1) := by
  have hk0 : k ≠ 0 := by
    rintro rfl
    simp [kMicrosecondsPerSecond] at hk
  obtain ⟨m, rfl⟩ : ∃ m, k = m + 1 := ⟨k - 1, by omega⟩
  have hmi : ((m : Int)) * i = kMicrosecondsPerSecond - i := by
    push_cast at hk; linarith
  have hlt : (0 : Int) + (m : Int) * i < kMicrosecondsPerSecond := by
    rw [hmi]; linarith
  rw [tick_iter_add i ⟨t, 0⟩ m 1,
      tick_iter_no_carry i hi m t 0 le_rfl hlt]
  have hcarry : (0 : Int) + (m : Int) * i + i ≥ kMicrosecondsPerSecond := by
    rw [hmi]; linarith
  simp only [tick_iter, timer_tick]
  rw [if_pos hcarry]
  by_cases ht : 0 < t
  · rw [if_pos ht, if_pos ht]
    simp
  · rw [if_neg ht, if_neg ht]
    simp

/-- Whole-second countdown: from a zero accumulator and at least `n` seconds
remaining, `n` seconds worth of exact ticks decrement the counter by `n`
without any expiry. -/
lemma tick_iter_countdown (i : Int) (k : Nat) (hi : 0 < i)
    (hk : (k : Int) * i = kMicrosecondsPerSecond) :
    ∀ (n : Nat) (t : Int), (n : Int) ≤ t →
      tick_iter i ⟨t, 0⟩ (n * k) = (⟨t - n, 0⟩, 0) := by
  intro n
  induction n with
  | zero => intro t _; simp [tick_iter]
  | succ n ih =>
      intro t ht
      have hn : (n : Int) + 1 ≤ t := by push_cast at ht; linarith
      have hmul : (n + 1) * k = k + n * k := by ring
      rw [hmul, tick_iter_add i ⟨t, 0⟩ k (n * k),
          tick_iter_one_second i k t hi hk, if_pos (by linarith)]
      simp only
      rw [ih (t - 1) (by linarith)]
      refine Prod.ext ?_ (by simp)
      simp only
      congr 1
      push_cast
      ring

/-- A single tick never drives the seconds counter negative. -/
lemma timer_tick_total_nonneg (st : TimerTickState) (i : Int)
    (h : 0 ≤ st.total_seconds) :
    0 ≤ (timer_tick st i).1.total_seconds := by
  simp only [timer_tick]
  split
  · split <;> simp <;> omega
  · simpa

/-- Iterated ticks never drive the seconds counter negative. -/
lemma tick_iter_total_nonneg (i : Int) :
    ∀ (m : Nat) (st : TimerTickState), 0 ≤ st.total_seconds →
      0 ≤ (tick_iter i st m).1.total_seconds := by
  intro m
  induction m with
  | zero => intro st h; simpa [tick_iter]
  | succ n ih =>
      intro st h
      simp only [tick_iter]
      exact ih _ (timer_tick_total_nonneg st i h)

/-! Claim theorems. -/

set_option maxRecDepth 8000

/-- Claim C1: starting from `total_seconds_remaining = N > 0` with a zero
accumulator, ticking with a positive interval `i` such that `k` ticks sum to
exactly one second yields `total_seconds_remaining = 0` after `N` whole
seconds of ticks (`N * k` calls) with expired never returned; during the next
second the counter stays at 0 with still no expiry until the advance that
carries, which returns expired = true, and the counter never becomes
negative. -/
theorem timer_exact_ticks_countdown_then_expire (i : Int) (k N : Nat)
    (hi : 0 < i) (hk : (k : Int) * i = kMicrosecondsPerSecond) (hN : 0 < N) :
    tick_iter i ⟨(N : Int), 0⟩ (N * k) = (⟨0, 0⟩, 0) ∧
    (∀ m : Nat, m < k →
      (tick_iter i ⟨(N : Int), 0⟩ (N * k + m)).1.total_seconds = 0 ∧
      (tick_iter i ⟨(N : Int), 0⟩ (N * k + m)).2 = 0) ∧
    tick_iter i ⟨(N : Int), 0⟩ (N * k + k) = (⟨0, 0⟩, 1) ∧
    (∀ m : Nat, 0 ≤ (tick_iter i ⟨(N : Int), 0⟩ m).1.total_seconds) := by
  have hbase : tick_iter i ⟨(N : Int), 0⟩ (N * k) = (⟨0, 0⟩, 0) := by
    have h := tick_iter_countdown i k hi hk N (N : Int) le_rfl
    simpa using h
  refine ⟨hbase, ?_, ?_, ?_⟩
  · intro m hm
    have hmk : (m : Int) * i < (k : Int) * i := by
      apply mul_lt_mul_of_pos_right _ hi
      exact_mod_cast hm
    have hmi : (0 : Int) + (m : Int) * i < kMicrosecondsPerSecond := by
      rw [hk] at hmk; linarith
    rw [tick_iter_add, hbase]
    simp only
    rw [tick_iter_no_carry i hi m 0 0 le_rfl hmi]
    simp
  · rw [tick_iter_add, hbase]
    simp only
    rw [tick_iter_one_second i k 0 hi hk, if_neg (by norm_num)]
    simp
  · intro m
    exact tick_iter_total_nonneg i m ⟨(N : Int), 0⟩ (by positivity)

/-- Witness for C1 at `i = 500000`, `k = 2`, `N = 2`. -/
theorem timer_exact_ticks_countdown_then_expire_witness :
    (0 : Int) < 500000 ∧
    ((2 : Nat) : Int) * 500000 = kMicrosecondsPerSecond ∧ (0 : Nat) < 2 ∧
    (tick_iter 500000 ⟨((2 : Nat) : Int), 0⟩ (2 * 2) = (⟨0, 0⟩, 0) ∧
     (∀ m : Nat, m < 2 →
       (tick_iter 500000
           ⟨((2 : Nat) : Int), 0⟩ (2 * 2 + m)).1.total_seconds = 0 ∧
       (tick_iter 500000 ⟨((2 : Nat) : Int), 0⟩ (2 * 2 + m)).2 = 0) ∧
     tick_iter 500000 ⟨((2 : Nat) : Int), 0⟩ (2 * 2 + 2) = (⟨0, 0⟩, 1) ∧
     (∀ m : Nat,
       0 ≤ (tick_iter 500000 ⟨((2 : Nat) : Int), 0⟩ m).1.total_seconds)) :=
  ⟨by norm_num, by norm_num [kMicrosecondsPerSecond], by norm_num,
   timer_exact_ticks_countdown_then_expire 500000 2 2 (by norm_num)
     (by norm_num [kMicrosecondsPerSecond]) (by norm_num)⟩

/-- Claim C2 counterexample: at accumulator 999999 and interval 2 the carry
fires, but the code resets the accumulator to 0, not to
`999999 + 2 - 1000000 = 1`, refuting the claimed subtraction of exactly one
second. -/
theorem timer_tick_carry_subtraction_counterexample :
    ¬ ((timer_tick ⟨5, 999999⟩ 2).1.elapsed_us =
        999999 + 2 - kMicrosecondsPerSecond) := by
  decide

/-- Claim C2 amended: whenever the accumulator plus the interval reaches or
exceeds one second, the resulting accumulator is reset to exactly zero; it
equals the claimed `accumulator + interval - one second` precisely when the
sum is exactly one second. -/
theorem timer_tick_carry_resets_accumulator (st : TimerTickState) (i : Int)
    (_hacc : 0 ≤ st.elapsed_us) (_hi : 0 < i)
    (hcarry : st.elapsed_us + i ≥ kMicrosecondsPerSecond) :
    (timer_tick st i).1.elapsed_us = 0 ∧
    ((timer_tick st i).1.elapsed_us =
        st.elapsed_us + i - kMicrosecondsPerSecond ↔
      st.elapsed_us + i = kMicrosecondsPerSecond) := by
  simp only [timer_tick, if_pos hcarry]
  split <;> simp <;> omega

/-- Witness for the amended C2 at accumulator 999999, interval 2. -/
theorem timer_tick_carry_resets_accumulator_witness :
    (0 : Int) ≤ 999999 ∧ (0 : Int) < 2 ∧
    (999999 : Int) + 2 ≥ kMicrosecondsPerSecond ∧
    ((timer_tick ⟨3, 999999⟩ 2).1.elapsed_us = 0 ∧
     ((timer_tick ⟨3, 999999⟩ 2).1.elapsed_us =
         999999 + 2 - kMicrosecondsPerSecond ↔
       (999999 : Int) + 2 = kMicrosecondsPerSecond)) :=
  ⟨by norm_num, by norm_num, by norm_num [kMicrosecondsPerSecond],
   timer_tick_carry_resets_accumulator ⟨3, 999999⟩ 2 (by norm_num)
     (by norm_num) (by norm_num [kMicrosecondsPerSecond])⟩

/-- Claim C3 counterexample: from the debug study preset (10 seconds) with
the 10000 microsecond interval, 100 ticks are only one second of time: the
counter is at 9, not 0, and no expiry has fired, refuting the claimed
scenario numbers. -/
theorem debug_scenario_hundred_ticks_counterexample :
    ¬ ((tick_iter kIntervalUs ⟨10, 0⟩ 100).1.total_seconds = 0 ∧
       (tick_iter kIntervalUs ⟨10, 0⟩ 100).2 = 1) := by
  decide

/-- Claim C3 amended: with the debug study preset (0 min 10 s) and the
10000 microsecond interval, 10,000,000 microseconds of advances (1000 ticks)
bring `total_seconds_remaining` to 0 with no expiry yet; after one further
second (1100 ticks in all) the expiry that triggers the session transition
has fired exactly once, and the transition procedure on a completed study
session with a continue keystroke switches to the Break session. -/
theorem debug_scenario_thousand_ticks_expiry :
    tick_iter kIntervalUs ⟨10, 0⟩ 1000 = (⟨0, 0⟩, 0) ∧
    tick_iter kIntervalUs ⟨10, 0⟩ 1100 = (⟨0, 0⟩, 1) ∧
    (handle_session_transition false ⟨0, 10⟩ ⟨0, 0⟩ ⟨0, 10⟩ ⟨0, 5⟩
        "Running" 32).keep_going = true ∧
    (handle_session_transition false ⟨0, 10⟩ ⟨0, 0⟩ ⟨0, 10⟩ ⟨0, 5⟩
        "Running" 32).on_break = true := by
  have hi : (0 : Int) < kIntervalUs := by norm_num [kIntervalUs]
  have hk : ((100 : Nat) : Int) * kIntervalUs = kMicrosecondsPerSecond := by
    norm_num [kIntervalUs, kMicrosecondsPerSecond]
  have h1000 : tick_iter kIntervalUs ⟨10, 0⟩ 1000 = (⟨0, 0⟩, 0) := by
    have h := tick_iter_countdown kIntervalUs 100 hi hk 10 10 (by norm_num)
    norm_num at h
    exact h
  refine ⟨h1000, ?_, by decide, by decide⟩
  have hadd := tick_iter_add kIntervalUs ⟨10, 0⟩ 1000 100
  rw [h1000] at hadd
  simp only at hadd
  rw [tick_iter_one_second kIntervalUs 100 0 hi hk, if_neg (by norm_num)]
    at hadd
  norm_num at hadd
  exact hadd

/-- Claim C4: a single `timer_tick` decrements `total_seconds` by at most
one (and never increases it), for every state with non-negative fields and
every positive interval, even one spanning multiple whole seconds. -/
theorem timer_tick_decrements_at_most_one (st : TimerTickState) (i : Int)
    (_h0 : 0 ≤ st.total_seconds) (_h1 : 0 ≤ st.elapsed_us) (_hi : 0 < i) :
    st.total_seconds - 1 ≤ (timer_tick st i).1.total_seconds ∧
    (timer_tick st i).1.total_seconds ≤ st.total_seconds := by
  simp only [timer_tick]
  split
  · split <;> simp
  · simp

/-- Witness for C4 with a five-second interval in a single tick. -/
theorem timer_tick_decrements_at_most_one_witness :
    (0 : Int) ≤ 7 ∧ (0 : Int) ≤ 0 ∧ (0 : Int) < 5000000 ∧
    ((7 : Int) - 1 ≤ (timer_tick ⟨7, 0⟩ 5000000).1.total_seconds ∧
     (timer_tick ⟨7, 0⟩ 5000000).1.total_seconds ≤ 7) :=
  ⟨by norm_num, by norm_num, by norm_num,
   timer_tick_decrements_at_most_one ⟨7, 0⟩ 5000000 (by norm_num)
     (by norm_num) (by norm_num)⟩

/-- Claim C5: in every controller state, a loop iteration that reads the
reset key stops the run (running and paused cleared), resets the tick state
to the full duration of the currently active session kind (break duration on
a break, study duration otherwise) with a zero accumulator, and leaves the
active session kind unchanged; the configured durations are immutable
parameters. -/
theorem reset_key_restores_active_session_duration
    (pomodoro brk : SessionTime) (st : LoopState) (prompt_key : Int) :
    loop_step pomodoro brk st keyR prompt_key =
      .next ⟨false, false, st.on_break,
             (if st.on_break then brk else pomodoro),
             ⟨session_total_seconds (if st.on_break then brk else pomodoro),
              0⟩,
             if st.on_break then "Break Stopped" else "Stopped"⟩ := by
  simp [loop_step, is_main_quit_key, keyR, keyQLower, keyS, apply_key,
    tick_phase]

/-- Claim C6: from the Running state (running, not paused), the s-key branch
of the loop body pauses without touching the tick state or the session kind,
and a second press returns to Running, again without touching them; and the
clock phase of an iteration in which the run state is not Running (stopped
or paused) leaves the entire loop state unchanged. -/
theorem start_pause_toggle_preserves_tick_state (pomodoro brk : SessionTime)
    (st : LoopState) (hrun : st.running = true) (hpause : st.paused = false) :
    ((apply_key pomodoro brk st keyS).running = true ∧
     (apply_key pomodoro brk st keyS).paused = true ∧
     (apply_key pomodoro brk st keyS).tick_state = st.tick_state ∧
     (apply_key pomodoro brk st keyS).on_break = st.on_break) ∧
    ((apply_key pomodoro brk (apply_key pomodoro brk st keyS) keyS).running
        = true ∧
     (apply_key pomodoro brk (apply_key pomodoro brk st keyS) keyS).paused
        = false ∧
     (apply_key pomodoro brk (apply_key pomodoro brk st keyS) keyS).tick_state
        = st.tick_state ∧
     (apply_key pomodoro brk (apply_key pomodoro brk st keyS) keyS).on_break
        = st.on_break) ∧
    (∀ (st2 : LoopState) (pk : Int), (st2.running && !st2.paused) = false →
      tick_phase pomodoro brk st2 pk = .next st2) := by
  refine ⟨?_, ?_, ?_⟩
  · simp [apply_key, keyS, keyR, hrun, hpause]
  · simp [apply_key, keyS, keyR, hrun, hpause]
  · intro st2 pk h
    simp [tick_phase, h]

/-- Witness for C6 at a concrete Running study state. -/
theorem start_pause_toggle_preserves_tick_state_witness :
    ((⟨true, false, false, ⟨25, 0⟩, ⟨1500, 0⟩, "Running"⟩ : LoopState).running
      = true) ∧
    ((⟨true, false, false, ⟨25, 0⟩, ⟨1500, 0⟩, "Running"⟩ : LoopState).paused
      = false) ∧
    (((apply_key ⟨25, 0⟩ ⟨5, 0⟩
          ⟨true, false, false, ⟨25, 0⟩, ⟨1500, 0⟩, "Running"⟩ keyS).running
        = true ∧
      (apply_key ⟨25, 0⟩ ⟨5, 0⟩
          ⟨true, false, false, ⟨25, 0⟩, ⟨1500, 0⟩, "Running"⟩ keyS).paused
        = true ∧
      (apply_key ⟨25, 0⟩ ⟨5, 0⟩
          ⟨true, false, false, ⟨25, 0⟩, ⟨1500, 0⟩, "Running"⟩ keyS).tick_state
        = (⟨true, false, false, ⟨25, 0⟩, ⟨1500, 0⟩,
            "Running"⟩ : LoopState).tick_state ∧
      (apply_key ⟨25, 0⟩ ⟨5, 0⟩
          ⟨true, false, false, ⟨25, 0⟩, ⟨1500, 0⟩, "Running"⟩ keyS).on_break
        = (⟨true, false, false, ⟨25, 0⟩, ⟨1500, 0⟩,
            "Running"⟩ : LoopState).on_break) ∧
     ((apply_key ⟨25, 0⟩ ⟨5, 0⟩ (apply_key ⟨25, 0⟩ ⟨5, 0⟩
          ⟨true, false, false, ⟨25, 0⟩, ⟨1500, 0⟩, "Running"⟩ keyS)
          keyS).running = true ∧
      (apply_key ⟨25, 0⟩ ⟨5, 0⟩ (apply_key ⟨25, 0⟩ ⟨5, 0⟩
          ⟨true, false, false, ⟨25, 0⟩, ⟨1500, 0⟩, "Running"⟩ keyS)
          keyS).paused = false ∧
      (apply_key ⟨25, 0⟩ ⟨5, 0⟩ (apply_key ⟨25, 0⟩ ⟨5, 0⟩
          ⟨true, false, false, ⟨25, 0⟩, ⟨1500, 0⟩, "Running"⟩ keyS)
          keyS).tick_state
        = (⟨true, false, false, ⟨25, 0⟩, ⟨1500, 0⟩,
            "Running"⟩ : LoopState).tick_state ∧
      (apply_key ⟨25, 0⟩ ⟨5, 0⟩ (apply_key ⟨25, 0⟩ ⟨5, 0⟩
          ⟨true, false, false, ⟨25, 0⟩, ⟨1500, 0⟩, "Running"⟩ keyS)
          keyS).on_break
        = (⟨true, false, false, ⟨25, 0⟩, ⟨1500, 0⟩,
            "Running"⟩ : LoopState).on_break) ∧
     (∀ (st2 : LoopState) (pk : Int), (st2.running && !st2.paused) = false →
       tick_phase ⟨25, 0⟩ ⟨5, 0⟩ st2 pk = .next st2)) :=
  ⟨by decide, by decide,
   start_pause_toggle_preserves_tick_state ⟨25, 0⟩ ⟨5, 0⟩
     ⟨true, false, false, ⟨25, 0⟩, ⟨1500, 0⟩, "Running"⟩
     (by decide) (by decide)⟩

/-- Claim C7: whenever the session-transition procedure completes with the
user continuing (`keep_going = true`), the active session kind flips, so
study is always followed by break and break by study. -/
theorem session_transition_alternates (on_break : Bool)
    (current : SessionTime) (tick_state : TimerTickState)
    (pomodoro brk : SessionTime) (status : String) (prompt_key : Int)
    (h : (handle_session_transition on_break current tick_state pomodoro brk
        status prompt_key).keep_going = true) :
    (handle_session_transition on_break current tick_state pomodoro brk
        status prompt_key).on_break = !on_break := by
  unfold handle_session_transition at h ⊢
  cases on_break <;> by_cases hp : prompt_continue_result prompt_key <;>
    simp_all

/-- Witness for C7: a completed study session with a continue keystroke
switches to break. -/
theorem session_transition_alternates_witness :
    ((handle_session_transition false ⟨25, 0⟩ ⟨0, 0⟩ ⟨25, 0⟩ ⟨5, 0⟩
        "Running" 32).keep_going = true) ∧
    ((handle_session_transition false ⟨25, 0⟩ ⟨0, 0⟩ ⟨25, 0⟩ ⟨5, 0⟩
        "Running" 32).on_break = !false) :=
  ⟨by decide,
   session_transition_alternates false ⟨25, 0⟩ ⟨0, 0⟩ ⟨25, 0⟩ ⟨5, 0⟩
     "Running" 32 (by decide)⟩

/-- Claim C8: when the running clock expires during an iteration (no quit,
start/pause or reset key pending) and the user answers the transition prompt
with q or Q, the transition procedure reports a stop outcome and the loop
iteration ends in `stop` — the loop terminates with the running flag false,
so the run state never becomes Running again. -/
theorem quit_at_transition_prompt_stops_loop (pomodoro brk : SessionTime)
    (st : LoopState) (key_code prompt_key : Int)
    (hq : key_code ≠ keyQLower) (hs : key_code ≠ keyS) (hr : key_code ≠ keyR)
    (hrun : st.running = true) (hpause : st.paused = false)
    (htotal : st.tick_state.total_seconds ≤ 0)
    (hexp : st.tick_state.elapsed_us + kIntervalUs ≥ kMicrosecondsPerSecond)
    (hprompt : prompt_key = keyQLower ∨ prompt_key = keyQUpper) :
    ∃ st2 : LoopState,
      loop_step pomodoro brk st key_code prompt_key = .stop st2 ∧
      st2.running = false := by
  have hq2 : is_main_quit_key key_code = false := by
    simp [is_main_quit_key, hq]
  have hak : apply_key pomodoro brk st key_code = st := by
    simp [apply_key, hs, hr]
  have hpc : prompt_continue_result prompt_key = false := by
    rcases hprompt with h | h <;> simp [prompt_continue_result, h]
  have htick : timer_tick st.tick_state kIntervalUs
      = (⟨st.tick_state.total_seconds, 0⟩, true) := by
    simp only [timer_tick, if_pos hexp]
    rw [if_neg (by omega)]
  simp only [loop_step, hq2, Bool.false_eq_true, if_false, hak]
  simp only [tick_phase, hrun, hpause, Bool.not_false, Bool.and_true,
    if_true, htick]
  cases hob : st.on_break
  · simp [handle_session_transition, hob, hpc]
  · simp [handle_session_transition, hob, hpc]

/-- Witness for C8: expiring debug study session, no key pending, prompt
answered with lowercase q. -/
theorem quit_at_transition_prompt_stops_loop_witness :
    ((-1 : Int) ≠ keyQLower) ∧ ((-1 : Int) ≠ keyS) ∧ ((-1 : Int) ≠ keyR) ∧
    ((⟨true, false, false, ⟨0, 10⟩, ⟨0, 990000⟩, "Running"⟩
        : LoopState).running = true) ∧
    ((⟨true, false, false, ⟨0, 10⟩, ⟨0, 990000⟩, "Running"⟩
        : LoopState).paused = false) ∧
    ((⟨true, false, false, ⟨0, 10⟩, ⟨0, 990000⟩, "Running"⟩
        : LoopState).tick_state.total_seconds ≤ 0) ∧
    ((⟨true, false, false, ⟨0, 10⟩, ⟨0, 990000⟩, "Running"⟩
        : LoopState).tick_state.elapsed_us + kIntervalUs
      ≥ kMicrosecondsPerSecond) ∧
    ((113 : Int) = keyQLower ∨ (113 : Int) = keyQUpper) ∧
    (∃ st2 : LoopState,
      loop_step ⟨0, 10⟩ ⟨0, 5⟩
          ⟨true, false, false, ⟨0, 10⟩, ⟨0, 990000⟩, "Running"⟩ (-1) 113
        = .stop st2 ∧ st2.running = false) :=
  ⟨by decide, by decide, by decide, by decide, by decide, by decide,
   by decide, by decide,
   quit_at_transition_prompt_stops_loop ⟨0, 10⟩ ⟨0, 5⟩
     ⟨true, false, false, ⟨0, 10⟩, ⟨0, 990000⟩, "Running"⟩ (-1) 113
     (by decide) (by decide) (by decide) (by decide) (by decide) (by decide)
     (by decide) (by decide)⟩

/-- Claim C9: the progress fill is a pure function of total and remaining
seconds; for every positive total the fill is 0 when no second has elapsed,
and the bar is completely full (`kBarWidth`) when the remaining time is zero
after at least one elapsed second; when the total is zero the fill is 0 via
the branch that performs no division. -/
theorem progress_fill_zero_and_full (total remaining : Int) (h : 0 < total) :
    (total - remaining = 0 → progress_fill total remaining = 0) ∧
    (remaining = 0 → 0 < total - remaining →
      progress_fill total remaining = kBarWidth) ∧
    (∀ r : Int, progress_fill 0 r = 0) := by
  refine ⟨?_, ?_, ?_⟩
  · intro he
    simp only [progress_fill, if_pos h]
    rw [if_neg (by omega), he]
    simp
  · intro h0 hel
    simp only [progress_fill, if_pos h]
    rw [if_pos ⟨h0, hel⟩]
  · intro r
    simp [progress_fill]

/-- Witness for C9 at total = 5. -/
theorem progress_fill_zero_and_full_witness :
    (0 : Int) < 5 ∧
    (((5 : Int) - 5 = 0 → progress_fill 5 5 = 0) ∧
     ((5 : Int) = 0 → 0 < (5 : Int) - 5 → progress_fill 5 5 = kBarWidth) ∧
     (∀ r : Int, progress_fill 0 r = 0)) :=
  ⟨by norm_num, progress_fill_zero_and_full 5 5 (by norm_num)⟩

/-- Claim C10: the transition prompt treats exactly the keys q and Q as quit
(returning false) and every other key as continue, while the main event
loop's quit check matches only the lowercase q key. -/
theorem prompt_quit_keys_vs_loop_quit_key (k : Int) :
    (prompt_continue_result k = false ↔ (k = keyQLower ∨ k = keyQUpper)) ∧
    (is_main_quit_key k = true ↔ k = keyQLower) := by
  constructor
  · simp only [prompt_continue_result, Bool.and_eq_false_iff,
      bne_eq_false_iff_eq]
  · simp [is_main_quit_key]

end Pomodoro
